import Mathlib

/-!
Shallow embedding of the algorithmic core of the AI-Travel ("Atlas") repository:
the location-tracking service (`src/services/TrackerService.ts`), the photo
curation service (`CurationService`), and the shared helper utilities
(`calculateDistance`, `calculateSpeed`, `inferActivityFromSpeed`,
`retryWithBackoff`) together with the configuration constants
(`src/utils/constants.ts`).

Modelling conventions:
* JavaScript numbers that the code only ever compares and averages
  (timestamps in milliseconds, quality scores, coordinates in degrees,
  battery levels) are embedded as exact integers `ℤ`/`ℕ` or rationals `ℚ`
  (every IEEE-754 double is a rational); the transcendental haversine
  computation is embedded over the reals `ℝ`.
* `Date` values are embedded by their `getTime()` value: an integer number
  of milliseconds.
* Thrown JavaScript errors are embedded with `Except`, using the source's
  message strings.
-/

/-- `ActivityType` from `src/models/index.ts` (six values, including
`cycling`, which `inferActivityFromSpeed` never produces). -/
inductive ActivityType where
  | stationary
  | walking
  | driving
  | flying
  | train
  | cycling
  deriving DecidableEq, Repr

/-- `GeoPoint` from `src/models/index.ts`: latitude/longitude in degrees. -/
structure GeoPoint where
  latitude : ℚ
  longitude : ℚ
  deriving DecidableEq, Repr

/-! The update-interval and battery constants of `TRACKING_CONFIG`
(`src/utils/constants.ts`). -/

namespace TRACKING_CONFIG

/-- 30 seconds, in milliseconds ("when actively moving"). -/
def ACTIVE_INTERVAL : ℕ := 30000

/-- 5 minutes, in milliseconds ("when idle"). -/
def IDLE_INTERVAL : ℕ := 300000

/-- 10 minutes, in milliseconds ("when stationary"). -/
def STATIONARY_INTERVAL : ℕ := 600000

/-- `0.2`: "Switch to low-power mode at 20%". -/
def BATTERY_SAVER_THRESHOLD : ℚ := 1 / 5

end TRACKING_CONFIG

/-! The curation constants of `CURATION_CONFIG` (`src/utils/constants.ts`). -/

namespace CURATION_CONFIG

/-- `0.5`, minimum quality score. -/
def MIN_QUALITY_SCORE : ℚ := 1 / 2

/-- 1 hour, in milliseconds. -/
def TIME_CLUSTER_WINDOW : ℤ := 3600000

/-- 200 meters. -/
def LOCATION_CLUSTER_RADIUS : ℚ := 200

end CURATION_CONFIG

/-- `inferActivityFromSpeed` from the helper utilities: fixed speed bands in
m/s, evaluated top to bottom. -/
def inferActivityFromSpeed (speedMs : ℚ) : ActivityType :=
  if speedMs < 1 then .stationary
  else if speedMs < 2 then .walking
  else if speedMs < 20 then .driving
  else if speedMs < 55 then .train
  else .flying

/-- JavaScript's `Math.atan2 y x`: the angle of the point `(x, y)`, in
`(-π, π]`, with `atan2 0 0 = 0`.  This is exactly `Complex.arg (x + y*I)`. -/
noncomputable def atan2 (y x : ℝ) : ℝ := Complex.arg ⟨x, y⟩

/-- The haversine square-root argument `a` computed by `calculateDistance`:
`sin²(Δφ/2) + cos φ1 · cos φ2 · sin²(Δλ/2)` with latitudes/longitudes
converted from degrees to radians. -/
noncomputable def haversineA (point1 point2 : GeoPoint) : ℝ :=
  let φ1 : ℝ := ((point1.latitude : ℝ) * Real.pi) / 180
  let φ2 : ℝ := ((point2.latitude : ℝ) * Real.pi) / 180
  let Δφ : ℝ := (((point2.latitude - point1.latitude : ℚ) : ℝ) * Real.pi) / 180
  let Δlon : ℝ := (((point2.longitude - point1.longitude : ℚ) : ℝ) * Real.pi) / 180
  Real.sin (Δφ / 2) * Real.sin (Δφ / 2) +
    Real.cos φ1 * Real.cos φ2 * (Real.sin (Δlon / 2) * Real.sin (Δlon / 2))

/-- `calculateDistance` from the helper utilities: haversine distance in
meters with Earth radius `6371e3`.  The source computes
`c = 2 * Math.atan2(Math.sqrt(a), Math.sqrt(1 - a))` — note: the square-root
argument is NOT clamped to `[0, 1]` anywhere — and returns `R * c`. -/
noncomputable def calculateDistance (point1 point2 : GeoPoint) : ℝ :=
  6371000 *
    (2 * atan2 (Real.sqrt (haversineA point1 point2))
      (Real.sqrt (1 - haversineA point1 point2)))

open Classical in
/-- `calculateSpeed` from the helper utilities: distance over elapsed
seconds, `0` when the elapsed time is not positive. -/
noncomputable def calculateSpeed (point1 point2 : GeoPoint) (time1 time2 : ℤ) : ℝ :=
  let distance := calculateDistance point1 point2
  let timeDiff : ℝ := (((time2 : ℝ) - (time1 : ℝ))) / 1000
  if timeDiff > 0 then distance / timeDiff else 0

/-- The loop body of `retryWithBackoff`.  `retryGo fn baseDelay maxRetries i
fuel lastError` runs attempts `i, i+1, …, i+fuel-1` (mirroring the source's
`for (let i = 0; i < maxRetries; i++)`), threading the `lastError` variable
(`none` before any attempt — the source declares it uninitialized and throws
`lastError!` after the loop).  It returns the overall result together with
the list of backoff delays slept, in order: after a failed attempt `i` with
`i < maxRetries - 1` the source sleeps `baseDelay * 2 ^ i`. -/
def retryGo {E T : Type} (fn : ℕ → Except E T) (baseDelay maxRetries : ℕ) :
    ℕ → ℕ → Option E → Except (Option E) T × List ℕ
  | _, 0, lastError => (.error lastError, [])
  | i, fuel + 1, lastError =>
    match fn i with
    | .ok v => (.ok v, [])
    | .error e =>
      let rest := retryGo fn baseDelay maxRetries (i + 1) fuel (some e)
      if i < maxRetries - 1 then (rest.1, baseDelay * 2 ^ i :: rest.2) else rest

/-- `retryWithBackoff` from the helper utilities (source defaults:
`maxRetries = 3`, `baseDelay = 1000`).  The operation is embedded as a
function from the 0-based attempt index to that attempt's outcome. -/
def retryWithBackoff {E T : Type} (fn : ℕ → Except E T) (maxRetries baseDelay : ℕ) :
    Except (Option E) T × List ℕ :=
  retryGo fn baseDelay maxRetries 0 maxRetries none

/-- The tracker lifecycle `TrackerState` from `TrackerService.ts`. -/
inductive TrackerState where
  | stopped
  | active
  | paused
  deriving DecidableEq, Repr

/-- `LocationUpdate` from `TrackerService.ts`. -/
structure LocationUpdate where
  location : GeoPoint
  accuracy : ℚ
  altitude : Option ℚ
  speed : Option ℚ
  heading : Option ℚ
  timestamp : ℤ
  deriving DecidableEq, Repr

/-- `TrackerConfig` from `src/models/index.ts`. -/
structure TrackerConfig where
  isActive : Bool
  currentTripId : Option String
  updateInterval : ℕ
  distanceFilter : ℕ
  stationaryRadius : ℕ
  stopTimeout : ℕ
  deriving DecidableEq, Repr

/-- The mutable fields of the `TrackerService` singleton.  The two
`NodeJS.Timeout` handles are embedded as booleans recording whether the
corresponding timer is set. -/
structure TrackerServiceState where
  state : TrackerState
  currentTripId : Option String
  lastLocation : Option LocationUpdate
  currentActivity : ActivityType
  config : Option TrackerConfig
  trackingInterval : Bool
  syncInterval : Bool
  deriving DecidableEq, Repr

/-- `TrackerService.getUpdateInterval`: a switch on `this.currentActivity`
alone.  No battery level is read anywhere in `TrackerService`. -/
def getUpdateInterval (currentActivity : ActivityType) : ℕ :=
  match currentActivity with
  | .stationary => TRACKING_CONFIG.STATIONARY_INTERVAL
  | .walking => TRACKING_CONFIG.ACTIVE_INTERVAL
  | .driving | .flying | .train => TRACKING_CONFIG.ACTIVE_INTERVAL
  | _ => TRACKING_CONFIG.IDLE_INTERVAL

/-- The sampling interval as a function of the reported battery level and
the current activity.  `TrackerService` never consults a battery level —
`getUpdateInterval` reads only `currentActivity` — so the battery argument
is ignored; this wrapper only makes that (vacuous) dependence explicit so
that the specification's battery-saver statement can be compared with the
code. -/
def getUpdateIntervalWithBattery (batteryLevel : ℚ) (currentActivity : ActivityType) : ℕ :=
  getUpdateInterval currentActivity

/-- The sampling-interval policy as the specification words it: battery
level below `BATTERY_SAVER_THRESHOLD` forces the stationary interval
regardless of activity; otherwise 30 s for moving activities and 600 s for
`stationary`. -/
def specSamplingInterval (batteryLevel : ℚ) (currentActivity : ActivityType) : ℕ :=
  if batteryLevel < TRACKING_CONFIG.BATTERY_SAVER_THRESHOLD then
    TRACKING_CONFIG.STATIONARY_INTERVAL
  else
    match currentActivity with
    | .stationary => TRACKING_CONFIG.STATIONARY_INTERVAL
    | _ => TRACKING_CONFIG.ACTIVE_INTERVAL

/-- `TrackerService.startTracking tripId`: the permission check comes first
and nothing has been mutated when it fails (`throw new Error('Location
permission not granted')`); on success the trip id, lifecycle, activity,
config, and both timers are set.  The external permission check is the
boolean argument; the result is the thrown-or-ok outcome paired with the
post-state of the service. -/
def startTracking (hasPermission : Bool) (tripId : String) (s : TrackerServiceState) :
    Except String Unit × TrackerServiceState :=
  if !hasPermission then
    (.error "Location permission not granted", s)
  else
    (.ok (),
      { s with
        currentTripId := some tripId
        state := .active
        currentActivity := .stationary
        config := s.config.map fun c =>
          { c with isActive := true, currentTripId := some tripId }
        trackingInterval := true
        syncInterval := true })

/-- The externally observable actions `TrackerService.stopTracking` performs,
in program order. -/
inductive StopEvent where
  | setStateStopped
  | clearTripId
  | clearTrackingTimer
  | clearSyncTimer
  | flushPendingFixes
  | saveConfig
  deriving DecidableEq, Repr

/-- `TrackerService.stopTracking`, embedded as the post-state paired with the
trace of its externally observable actions in the order the source performs
them: it first sets `state = 'stopped'` and `currentTripId = null`, then
clears whichever timers are set, then runs the final
`syncPendingLocations()` flush, then persists the config.  `lastLocation`
is never touched. -/
def stopTracking (s : TrackerServiceState) : TrackerServiceState × List StopEvent :=
  ({ s with
      state := .stopped
      currentTripId := none
      trackingInterval := false
      syncInterval := false
      config := s.config.map fun c =>
        { c with isActive := false, currentTripId := none } },
    [StopEvent.setStateStopped, StopEvent.clearTripId] ++
      (if s.trackingInterval then [StopEvent.clearTrackingTimer] else []) ++
      (if s.syncInterval then [StopEvent.clearSyncTimer] else []) ++
      [StopEvent.flushPendingFixes] ++
      (if s.config.isSome then [StopEvent.saveConfig] else []))

/-- `PhotoAnalysis` from `CurationService`. -/
structure PhotoAnalysis where
  nativeId : String
  isJunk : Bool
  junkScore : ℚ
  qualityScore : ℚ
  timestamp : ℤ
  location : Option GeoPoint
  width : ℕ
  height : ℕ
  deriving DecidableEq, Repr

instance : Inhabited PhotoAnalysis := ⟨⟨"", false, 0, 0, 0, none, 0, 0⟩⟩

/-- `PhotoMetadata` from `src/models/index.ts`. -/
structure PhotoMetadata where
  nativeId : String
  timestamp : ℤ
  location : Option GeoPoint
  isJunk : Bool
  qualityScore : ℚ
  width : ℕ
  height : ℕ
  fileName : Option String
  deriving DecidableEq, Repr

/-- `PhotoCluster` from `src/models/index.ts`. -/
structure PhotoCluster where
  id : String
  tripId : String
  photos : List PhotoMetadata
  centerLocation : GeoPoint
  startTime : ℤ
  endTime : ℤ
  assignedStepId : Option String
  deriving DecidableEq, Repr

/-- The `PhotoAnalysis → PhotoMetadata` record conversion performed inside
`finalizeCluster` (`fileName: undefined`). -/
def toMetadata (p : PhotoAnalysis) : PhotoMetadata :=
  { nativeId := p.nativeId
    timestamp := p.timestamp
    location := p.location
    isJunk := p.isJunk
    qualityScore := p.qualityScore
    width := p.width
    height := p.height
    fileName := none }

/-- `CurationService.finalizeCluster`: start/end times from the first/last
photo, center location the arithmetic mean over the photos that carry a
location, `(0, 0)` when none does.  The source's `generateUUID()` id is
`Math.random()`-based and plays no role in any claim; it is embedded as the
fixed placeholder string. -/
def finalizeCluster (photos : List PhotoAnalysis) (tripId : String) : PhotoCluster :=
  let startTime := (photos.headD default).timestamp
  let endTime := (photos.getLastD default).timestamp
  let photosWithLocation := photos.filterMap (fun p => p.location)
  let centerLocation : GeoPoint :=
    if photosWithLocation.length > 0 then
      { latitude :=
          (photosWithLocation.map (·.latitude)).sum / (photosWithLocation.length : ℚ)
        longitude :=
          (photosWithLocation.map (·.longitude)).sum / (photosWithLocation.length : ℚ) }
    else
      { latitude := 0, longitude := 0 }
  { id := "uuid"
    tripId := tripId
    photos := photos.map toMetadata
    centerLocation := centerLocation
    startTime := startTime
    endTime := endTime
    assignedStepId := none }

/-- The join test of `CurationService.clusterPhotos` between the last photo
appended to the current cluster and the next photo of the sorted walk:
within the time window, and — only when both photos carry a location —
within the location radius (`true` by default otherwise).  The spatial test
`calculateDistance ≤ LOCATION_CLUSTER_RADIUS` is abstracted as the boolean
`near`, since the haversine comparison is a real-number predicate; see
`nearHaversine` for the source's instantiation. -/
def photoBelongs (near : GeoPoint → GeoPoint → Bool) (lastPhoto photo : PhotoAnalysis) : Bool :=
  let timeDiff := photo.timestamp - lastPhoto.timestamp
  let withinTimeWindow := decide (timeDiff ≤ CURATION_CONFIG.TIME_CLUSTER_WINDOW)
  let withinLocationRadius :=
    match photo.location, lastPhoto.location with
    | some pl, some ll => near pl ll
    | _, _ => true
  withinTimeWindow && withinLocationRadius

/-- The source's spatial test, as a proposition: haversine distance at most
`LOCATION_CLUSTER_RADIUS` (200 m). -/
noncomputable def withinLocationRadiusReal (a b : GeoPoint) : Prop :=
  calculateDistance a b ≤ (CURATION_CONFIG.LOCATION_CLUSTER_RADIUS : ℝ)

/-- The source's instantiation of the `near` parameter:
`calculateDistance(photo.location, lastPhoto.location) <= 200`. -/
noncomputable def nearHaversine : GeoPoint → GeoPoint → Bool := fun a b =>
  @decide (withinLocationRadiusReal a b) (Classical.propDecidable _)

/-- The walk of `CurationService.clusterPhotos` over the sorted sequence.
The source keeps `currentCluster` (never empty: every branch either appends
to it or restarts it with one photo) and reads
`currentCluster[currentCluster.length - 1]`; the embedding carries the
current cluster as `acc ++ [lastPhoto]`, making the last appended photo
explicit.  The source's `if (currentCluster.length > 0)` guards are always
true and correspondingly have no counterpart. -/
def clusterLoop (near : GeoPoint → GeoPoint → Bool) (tripId : String)
    (acc : List PhotoAnalysis) (lastPhoto : PhotoAnalysis) :
    List PhotoAnalysis → List PhotoCluster
  | [] => [finalizeCluster (acc ++ [lastPhoto]) tripId]
  | photo :: rest =>
    if photoBelongs near lastPhoto photo then
      clusterLoop near tripId (acc ++ [lastPhoto]) photo rest
    else
      finalizeCluster (acc ++ [lastPhoto]) tripId :: clusterLoop near tripId [] photo rest

/-- The source's `[...photos].sort((a, b) => a.timestamp.getTime() -
b.timestamp.getTime())`: a stable sort ascending by timestamp (embedded as
a stable insertion sort — ties keep their original relative order, as with
the JavaScript engine's stable sort). -/
def sortByTimestamp (photos : List PhotoAnalysis) : List PhotoAnalysis :=
  photos.insertionSort (fun a b => a.timestamp ≤ b.timestamp)

/-- `CurationService.clusterPhotos`: empty input returns no clusters;
otherwise the sorted sequence is walked starting from a cluster holding the
first photo. -/
def clusterPhotos (near : GeoPoint → GeoPoint → Bool) (photos : List PhotoAnalysis)
    (tripId : String) : List PhotoCluster :=
  match sortByTimestamp photos with
  | [] => []
  | first :: rest => clusterLoop near tripId [] first rest

/-- The join condition as the claim words it: the timestamp difference is at
most 3 600 000 ms, and, when both photos carry a location, the spatial test
holds (skipped — true — when either lacks a location). -/
def specJoinsB (near : GeoPoint → GeoPoint → Bool) (prev next : PhotoAnalysis) : Bool :=
  decide (next.timestamp - prev.timestamp ≤ 3600000) &&
    (match next.location, prev.location with
     | some pl, some ll => near pl ll
     | _, _ => true)

/-- Chain clustering as the specification describes it: a photo belongs to
the same group as its immediate predecessor in the sorted walk exactly when
the join condition holds between that consecutive pair; a failed test
starts a new group.  `specGroups near p l` groups the sequence `p :: l`. -/
def specGroups (near : GeoPoint → GeoPoint → Bool) :
    PhotoAnalysis → List PhotoAnalysis → List (List PhotoAnalysis)
  | p, [] => [[p]]
  | p, q :: rest =>
    match specGroups near q rest with
    | [] => [[p]]
    | g :: gs => if specJoinsB near p q then (p :: g) :: gs else [p] :: g :: gs

/-- The clustering engine as the specification describes it: sort by
timestamp ascending, chain-group consecutive photos by the join condition,
and emit each contiguous group as one finalized cluster, the last group
included. -/
def specClusterPhotos (near : GeoPoint → GeoPoint → Bool) (photos : List PhotoAnalysis)
    (tripId : String) : List PhotoCluster :=
  match sortByTimestamp photos with
  | [] => []
  | first :: rest => (specGroups near first rest).map (fun g => finalizeCluster g tripId)

/-- The cluster centroid as the claim words it: the arithmetic mean of
latitude and longitude over exactly the member photos that carry a
location, or `(0, 0)` when no member does. -/
def specCentroid (photos : List PhotoMetadata) : GeoPoint :=
  let locs := photos.filterMap (·.location)
  if locs = [] then { latitude := 0, longitude := 0 }
  else
    { latitude := (locs.map (·.latitude)).sum / (locs.length : ℚ)
      longitude := (locs.map (·.longitude)).sum / (locs.length : ℚ) }

/-- The retry policy as the claim words it: one initial attempt and, on
failure, up to `maxRetries` further retries — `maxRetries + 1` attempts in
total — with delay `baseDelay * 2 ^ i` after failed attempt `i` when a
retry follows. -/
def claimedRetry {E T : Type} (fn : ℕ → Except E T) (maxRetries baseDelay : ℕ) :
    Except (Option E) T × List ℕ :=
  retryGo fn baseDelay (maxRetries + 1) 0 (maxRetries + 1) none

/-- C5: for every non-negative speed `s`, `classify` (the source's
`inferActivityFromSpeed`) returns `stationary` on `s < 1`, `walking` on
`1 ≤ s < 2`, `driving` on `2 ≤ s < 20`, `train` on `20 ≤ s < 55` and
`flying` on `55 ≤ s` — non-overlapping bands, inclusive on the lower
edge, no hysteresis (the function is pure in its argument). -/
theorem inferActivityFromSpeed_c5 (s : ℚ) (h : 0 ≤ s) :
    (s < 1 → inferActivityFromSpeed s = .stationary) ∧
    (1 ≤ s → s < 2 → inferActivityFromSpeed s = .walking) ∧
    (2 ≤ s → s < 20 → inferActivityFromSpeed s = .driving) ∧
    (20 ≤ s → s < 55 → inferActivityFromSpeed s = .train) ∧
    (55 ≤ s → inferActivityFromSpeed s = .flying) := by
  refine ⟨fun h1 => ?_, fun h1 h2 => ?_, fun h1 h2 => ?_, fun h1 h2 => ?_, fun h1 => ?_⟩ <;>
    unfold inferActivityFromSpeed <;> split_ifs <;> first | rfl | linarith

/-- Witness for C5 at the concrete speed 3 m/s (a `driving` sample). -/
theorem inferActivityFromSpeed_c5_witness :
    inferActivityFromSpeed 3 = ActivityType.driving :=
  (inferActivityFromSpeed_c5 3 (by norm_num)).2.2.1 (by norm_num) (by norm_num)

/-- C3 counterexample: at battery level `0.1 < 0.2` and activity `walking`
the code still returns the 30 s active interval — `TrackerService` has no
battery-saver mode (`getUpdateInterval` never reads a battery level), while
the claimed policy would force the 600 s stationary interval. -/
theorem getUpdateInterval_c3_counterexample :
    getUpdateIntervalWithBattery (1 / 10) ActivityType.walking = 30000 ∧
    specSamplingInterval (1 / 10) ActivityType.walking = 600000 ∧
    (30000 : ℕ) ≠ 600000 := by
  refine ⟨rfl, ?_, by decide⟩
  unfold specSamplingInterval
  rw [if_pos (by norm_num [TRACKING_CONFIG.BATTERY_SAVER_THRESHOLD])]
  rfl

/-- C3 amended: while a session is active the next sampling interval is a
function of the activity classification alone — 30 000 ms for walking,
driving, train and flying, 600 000 ms for stationary (and 300 000 ms for
the classifier-unreachable `cycling` default branch); the reported battery
level is never consulted. -/
theorem getUpdateInterval_c3_amended (batteryLevel : ℚ) (a : ActivityType) :
    getUpdateIntervalWithBattery batteryLevel a =
      match a with
      | .stationary => 600000
      | .cycling => 300000
      | _ => 30000 := by
  cases a <;> rfl

/-- C7: when the external location-permission check reports `false`,
`startTracking` fails with the permission error and the service state is
returned unchanged: the lifecycle is still `stopped` and no trip id has
been recorded. -/
theorem startTracking_c7 (tripId : String) (s : TrackerServiceState)
    (h : s.state = .stopped) :
    (startTracking false tripId s).1 = Except.error "Location permission not granted" ∧
    (startTracking false tripId s).2 = s ∧
    (startTracking false tripId s).2.state = .stopped ∧
    (startTracking false tripId s).2.currentTripId = s.currentTripId :=
  ⟨rfl, rfl, h, rfl⟩

/-- A stopped tracker state, with no trip and no last fix. -/
def trackerStoppedExample : TrackerServiceState :=
  { state := .stopped
    currentTripId := none
    lastLocation := none
    currentActivity := .stationary
    config := none
    trackingInterval := false
    syncInterval := false }

/-- Witness for C7 on the concrete stopped tracker state. -/
theorem startTracking_c7_witness :
    (startTracking false "trip-1" trackerStoppedExample).1 =
        Except.error "Location permission not granted" ∧
      (startTracking false "trip-1" trackerStoppedExample).2 = trackerStoppedExample ∧
      (startTracking false "trip-1" trackerStoppedExample).2.state = .stopped ∧
      (startTracking false "trip-1" trackerStoppedExample).2.currentTripId =
        trackerStoppedExample.currentTripId :=
  startTracking_c7 "trip-1" trackerStoppedExample rfl

/-- A concrete last fix, used by the C6 counterexample. -/
def locationUpdateExample : LocationUpdate :=
  { location := { latitude := 1, longitude := 2 }
    accuracy := 5
    altitude := none
    speed := none
    heading := none
    timestamp := 1000 }

/-- A concrete active tracker session with both timers set, a config, and a
recorded last fix. -/
def trackerActiveExample : TrackerServiceState :=
  { state := .active
    currentTripId := some "trip-1"
    lastLocation := some locationUpdateExample
    currentActivity := .walking
    config := some
      { isActive := true
        currentTripId := some "trip-1"
        updateInterval := 30000
        distanceFilter := 10
        stationaryRadius := 50
        stopTimeout := 1800000 }
    trackingInterval := true
    syncInterval := true }

/-- C6 counterexample: stopping the concrete active session performs the
`Stopped` transition as its FIRST action and only flushes as its fifth —
the flush does not precede the transition — and the last fix is retained,
not cleared, after `stopTracking`. -/
theorem stopTracking_c6_counterexample :
    (stopTracking trackerActiveExample).2 =
        [StopEvent.setStateStopped, StopEvent.clearTripId, StopEvent.clearTrackingTimer,
          StopEvent.clearSyncTimer, StopEvent.flushPendingFixes, StopEvent.saveConfig] ∧
      StopEvent.flushPendingFixes ∉ (stopTracking trackerActiveExample).2.take 4 ∧
      (stopTracking trackerActiveExample).1.lastLocation = some locationUpdateExample ∧
      some locationUpdateExample ≠ (none : Option LocationUpdate) := by
  refine ⟨rfl, by decide, rfl, by decide⟩

/-- C6 amended: `stopTracking` first transitions the lifecycle to `stopped`
and clears the trip id and timers, and only then flushes the buffered
pending fixes through the final sync; the flush does happen on every stop
(no buffered fix is discarded — the clears touch only the lifecycle
fields), but `lastFix` is retained, not cleared. -/
theorem stopTracking_c6_amended (s : TrackerServiceState) :
    (stopTracking s).1.state = .stopped ∧
      (stopTracking s).1.currentTripId = none ∧
      (stopTracking s).1.lastLocation = s.lastLocation ∧
      ∃ pre post, (stopTracking s).2 = pre ++ StopEvent.flushPendingFixes :: post ∧
        StopEvent.setStateStopped ∈ pre ∧ StopEvent.clearTripId ∈ pre := by
  refine ⟨rfl, rfl, rfl,
    [StopEvent.setStateStopped, StopEvent.clearTripId] ++
      (if s.trackingInterval then [StopEvent.clearTrackingTimer] else []) ++
      (if s.syncInterval then [StopEvent.clearSyncTimer] else []),
    (if s.config.isSome then [StopEvent.saveConfig] else []), ?_, by simp, by simp⟩
  simp [stopTracking]

/-- One step of the retry loop, for rewriting. -/
theorem retryGo_succ {E T : Type} (fn : ℕ → Except E T) (baseDelay maxRetries : ℕ)
    (i fuel : ℕ) (last : Option E) :
    retryGo fn baseDelay maxRetries i (fuel + 1) last =
      match fn i with
      | .ok v => (.ok v, [])
      | .error e =>
        let rest := retryGo fn baseDelay maxRetries (i + 1) fuel (some e)
        if i < maxRetries - 1 then (rest.1, baseDelay * 2 ^ i :: rest.2) else rest := rfl

/-- Rewriting the delay list of a shifted-by-one loop suffix. -/
theorem delay_range_shift (baseDelay i n : ℕ) :
    (List.range (n + 1)).map (fun j => baseDelay * 2 ^ (i + j)) =
      baseDelay * 2 ^ i :: (List.range n).map (fun j => baseDelay * 2 ^ (i + 1 + j)) := by
  rw [List.range_succ_eq_map, List.map_cons, List.map_map, Nat.add_zero]
  congr 1
  apply List.map_congr_left
  intro j hj
  simp only [Function.comp_apply]
  rw [show i + Nat.succ j = i + 1 + j by omega]

/-- If attempts `i, …, i+k-1` fail and attempt `i+k` succeeds within the
loop bound, `retryGo` returns that success after exactly the backoff delays
of the `k` failed attempts. -/
theorem retryGo_ok {E T : Type} (fn : ℕ → Except E T) (baseDelay maxRetries : ℕ) :
    ∀ (fuel k i : ℕ) (last : Option E) (v : T), k < fuel → i + fuel = maxRetries →
      (∀ j, j < k → (fn (i + j)).isOk = false) → fn (i + k) = .ok v →
      retryGo fn baseDelay maxRetries i fuel last =
        (.ok v, (List.range k).map fun j => baseDelay * 2 ^ (i + j)) := by
  intro fuel
  induction fuel with
  | zero => intro k i last v hk; omega
  | succ f ih =>
    intro k i last v hk hif hfail hok
    match k with
    | 0 =>
      rw [Nat.add_zero] at hok
      rw [retryGo_succ, hok]
      rfl
    | k' + 1 =>
      have h0 : (fn i).isOk = false := by simpa using hfail 0 (Nat.succ_pos k')
      cases hfn : fn i with
      | ok v0 => rw [hfn] at h0; exact Bool.noConfusion h0
      | error e =>
        have hguard : i < maxRetries - 1 := by omega
        have hrest := ih k' (i + 1) (some e) v (by omega) (by omega)
          (fun j hj => by
            have := hfail (j + 1) (by omega)
            rwa [show i + (j + 1) = i + 1 + j by omega] at this)
          (by rwa [show i + 1 + k' = i + (k' + 1) by omega])
        rw [retryGo_succ, hfn]
        dsimp only
        rw [if_pos hguard, hrest, delay_range_shift]

/-- If every attempt in the loop fails, `retryGo` surfaces the error of the
last attempt after the backoff delays of all attempts but the last. -/
theorem retryGo_err {E T : Type} (fn : ℕ → Except E T) (baseDelay maxRetries : ℕ)
    (err : ℕ → E) :
    ∀ (fuel i : ℕ) (last : Option E), 0 < fuel → i + fuel = maxRetries →
      (∀ j, j < fuel → fn (i + j) = .error (err (i + j))) →
      retryGo fn baseDelay maxRetries i fuel last =
        (.error (some (err (maxRetries - 1))),
          (List.range (fuel - 1)).map fun j => baseDelay * 2 ^ (i + j)) := by
  intro fuel
  induction fuel with
  | zero => intro i last h0; omega
  | succ f ih =>
    intro i last hpos hif hfail
    have hfn : fn i = .error (err i) := by simpa using hfail 0 (Nat.succ_pos f)
    match f with
    | 0 =>
      have hi : i = maxRetries - 1 := by omega
      have hguard : ¬ i < maxRetries - 1 := by omega
      subst hi
      rw [retryGo_succ, hfn]
      dsimp only
      rw [if_neg hguard]
      rfl
    | f' + 1 =>
      have hguard : i < maxRetries - 1 := by omega
      have hrest := ih (i + 1) (some (err i)) (by omega) (by omega)
        (fun j hj => by
          have := hfail (j + 1) (by omega)
          rwa [show i + (j + 1) = i + 1 + j by omega] at this)
      rw [retryGo_succ, hfn]
      dsimp only
      rw [if_pos hguard, hrest]
      rw [show f' + 1 + 1 - 1 = (f' + 1 - 1) + 1 by omega, delay_range_shift]

/-- C4 amended: `retryWithBackoff` makes at most `maxRetries` attempts in
total (the initial attempt plus up to `maxRetries - 1` retries — not
`maxRetries` retries), sleeping `baseDelay * 2 ^ i` after failed attempt
`i` whenever a retry follows.  An operation failing exactly twice and then
succeeding under the defaults (`maxRetries = 3`, `baseDelay = 1000`)
returns success after exactly the two delays 1000 ms and 2000 ms; when all
`maxRetries` attempts fail, the error of the last attempt is thrown and
nothing is retried further. -/
theorem retryWithBackoff_c4_amended {E T : Type} (fn : ℕ → Except E T)
    (maxRetries baseDelay : ℕ) (h : 1 ≤ maxRetries) :
    (∀ k v, k < maxRetries → (∀ j, j < k → (fn j).isOk = false) → fn k = .ok v →
        retryWithBackoff fn maxRetries baseDelay =
          (.ok v, (List.range k).map fun j => baseDelay * 2 ^ j)) ∧
      (∀ err : ℕ → E, (∀ j, j < maxRetries → fn j = .error (err j)) →
        retryWithBackoff fn maxRetries baseDelay =
          (.error (some (err (maxRetries - 1))),
            (List.range (maxRetries - 1)).map fun j => baseDelay * 2 ^ j)) := by
  constructor
  · intro k v hk hfail hok
    have := retryGo_ok fn baseDelay maxRetries maxRetries k 0 none v hk (by omega)
      (fun j hj => by simpa using hfail j hj) (by simpa using hok)
    simpa [retryWithBackoff] using this
  · intro err hfail
    have := retryGo_err fn baseDelay maxRetries err maxRetries 0 none (by omega) (by omega)
      (fun j hj => by simpa using hfail j hj)
    simpa [retryWithBackoff] using this

/-- An operation that fails exactly twice and then succeeds. -/
def retryOkAfterTwo : ℕ → Except String ℕ := fun i => if i < 2 then .error "boom" else .ok 42

/-- An operation that fails on every attempt. -/
def retryAlwaysFail : ℕ → Except String ℕ := fun _ => .error "boom"

/-- An operation that fails exactly three times and then succeeds. -/
def retryOkAfterThree : ℕ → Except String ℕ := fun i => if i < 3 then .error "boom" else .ok 7

/-- Witness for C4 (amended) under the default configuration: two failures
then success yields success after delays 1000 ms and 2000 ms; three
failures exhaust the loop and surface the last error after the same two
delays. -/
theorem retryWithBackoff_c4_witness :
    retryWithBackoff retryOkAfterTwo 3 1000 = (.ok 42, [1000, 2000]) ∧
      retryWithBackoff retryAlwaysFail 3 1000 = (.error (some "boom"), [1000, 2000]) :=
  ⟨(retryWithBackoff_c4_amended retryOkAfterTwo 3 1000 (by decide)).1 2 42 (by decide)
      (by decide) rfl,
    (retryWithBackoff_c4_amended retryAlwaysFail 3 1000 (by decide)).2 (fun _ => "boom")
      (fun j hj => rfl)⟩

/-- C4 counterexample: on an operation failing exactly 3 times and then
succeeding, the claimed policy — an attempt plus up to `maxRetries = 3`
retries — reaches the succeeding fourth attempt (after three delays), but
the source's loop runs only `maxRetries = 3` attempts in total and throws
the last error after two delays. -/
theorem retryWithBackoff_c4_counterexample :
    retryWithBackoff retryOkAfterThree 3 1000 = (.error (some "boom"), [1000, 2000]) ∧
      claimedRetry retryOkAfterThree 3 1000 = (.ok 7, [1000, 2000, 4000]) ∧
      (Except.error (some "boom") : Except (Option String) ℕ) ≠ .ok 7 := by
  refine ⟨rfl, rfl, by simp⟩

/-- The source's join test and the claim's join test agree (the constants
`TIME_CLUSTER_WINDOW = 3600000` coincide, and both skip the spatial test
unless both photos carry a location). -/
theorem photoBelongs_eq_specJoins (near : GeoPoint → GeoPoint → Bool)
    (lastPhoto photo : PhotoAnalysis) :
    photoBelongs near lastPhoto photo = specJoinsB near lastPhoto photo := rfl

/-- Chain grouping never returns an empty group list. -/
theorem specGroups_ne_nil (near : GeoPoint → GeoPoint → Bool) (p : PhotoAnalysis)
    (l : List PhotoAnalysis) : specGroups near p l ≠ [] := by
  cases l with
  | nil => simp [specGroups]
  | cons q rest =>
    unfold specGroups
    cases h : specGroups near q rest with
    | nil => simp
    | cons g gs =>
      dsimp only
      split <;> simp

/-- The walk of `clusterPhotos` emits exactly the chain groups, the first
group extended by the photos already accumulated in the current cluster. -/
theorem clusterLoop_eq_specGroups (near : GeoPoint → GeoPoint → Bool) (tripId : String) :
    ∀ (rest acc : List PhotoAnalysis) (lastPhoto : PhotoAnalysis)
      (g : List PhotoAnalysis) (gs : List (List PhotoAnalysis)),
      specGroups near lastPhoto rest = g :: gs →
      clusterLoop near tripId acc lastPhoto rest =
        finalizeCluster (acc ++ g) tripId :: gs.map (fun h => finalizeCluster h tripId) := by
  intro rest
  induction rest with
  | nil =>
    intro acc lastPhoto g gs hspec
    unfold specGroups at hspec
    injection hspec with h1 h2
    subst h1
    subst h2
    rfl
  | cons p rest2 ih =>
    intro acc lastPhoto g gs hspec
    obtain ⟨g0, gs0, h0⟩ : ∃ g0 gs0, specGroups near p rest2 = g0 :: gs0 := by
      cases h : specGroups near p rest2 with
      | nil => exact absurd h (specGroups_ne_nil near p rest2)
      | cons a b => exact ⟨a, b, rfl⟩
    unfold specGroups at hspec
    rw [h0] at hspec
    dsimp only at hspec
    show (if photoBelongs near lastPhoto p then
        clusterLoop near tripId (acc ++ [lastPhoto]) p rest2
      else
        finalizeCluster (acc ++ [lastPhoto]) tripId :: clusterLoop near tripId [] p rest2) = _
    rw [photoBelongs_eq_specJoins]
    cases hj : specJoinsB near lastPhoto p with
    | true =>
      rw [hj] at hspec
      rw [if_pos rfl] at hspec
      injection hspec with h1 h2
      subst h1
      subst h2
      rw [if_pos rfl, ih (acc ++ [lastPhoto]) p g0 gs0 h0, List.append_assoc]
      rfl
    | false =>
      rw [hj] at hspec
      rw [if_neg (by simp)] at hspec
      injection hspec with h1 h2
      subst h1
      subst h2
      rw [if_neg (by simp), ih [] p g0 gs0 h0]
      simp

/-- C1: `clusterPhotos` walks the timestamp-ascending-sorted sequence and a
photo joins the current cluster exactly when the join test against the last
photo appended to that cluster succeeds — i.e. the timestamp difference is
at most 3 600 000 ms and, when both photos carry a location, the spatial
test holds (skipped when either lacks a location); on a failed test the
current cluster is emitted and a new cluster starts with the photo, and the
last cluster is emitted after the loop.  Formally: the engine's output
coincides, for every spatial predicate `near` (the source instantiates
`near` with the 200 m haversine test, `nearHaversine`), with the
specification-side chain clustering `specClusterPhotos`, whose groups break
exactly where the claim's join condition `specJoinsB` fails between
consecutive photos of the sorted walk. -/
theorem clusterPhotos_c1 (near : GeoPoint → GeoPoint → Bool)
    (photos : List PhotoAnalysis) (tripId : String) :
    clusterPhotos near photos tripId = specClusterPhotos near photos tripId := by
  unfold clusterPhotos specClusterPhotos
  cases h : sortByTimestamp photos with
  | nil => rfl
  | cons first rest =>
    obtain ⟨g, gs, hg⟩ : ∃ g gs, specGroups near first rest = g :: gs := by
      cases h2 : specGroups near first rest with
      | nil => exact absurd h2 (specGroups_ne_nil near first rest)
      | cons a b => exact ⟨a, b, rfl⟩
    dsimp only
    rw [clusterLoop_eq_specGroups near tripId rest [] first g gs hg, hg]
    simp

/-- The photos of a finalized cluster are the group's photos, converted to
metadata. -/
theorem finalizeCluster_photos (g : List PhotoAnalysis) (tripId : String) :
    (finalizeCluster g tripId).photos = g.map toMetadata := rfl

/-- Concatenating the member photos of the emitted clusters of the walk
restores the accumulated current cluster followed by the remaining input. -/
theorem clusterLoop_bind (near : GeoPoint → GeoPoint → Bool) (tripId : String) :
    ∀ (rest acc : List PhotoAnalysis) (lastPhoto : PhotoAnalysis),
      ((clusterLoop near tripId acc lastPhoto rest).flatMap fun c => c.photos) =
        (acc ++ lastPhoto :: rest).map toMetadata := by
  intro rest
  induction rest with
  | nil =>
    intro acc lastPhoto
    simp [clusterLoop, finalizeCluster_photos]
  | cons p rest2 ih =>
    intro acc lastPhoto
    show ((if photoBelongs near lastPhoto p then
        clusterLoop near tripId (acc ++ [lastPhoto]) p rest2
      else
        finalizeCluster (acc ++ [lastPhoto]) tripId ::
          clusterLoop near tripId [] p rest2).flatMap fun c => c.photos) = _
    cases hj : photoBelongs near lastPhoto p with
    | true =>
      rw [if_pos rfl, ih (acc ++ [lastPhoto]) p]
      simp
    | false =>
      rw [if_neg (by simp)]
      rw [List.flatMap_cons, ih [] p, finalizeCluster_photos]
      simp
    
/-- Every emitted cluster is the finalization of some non-empty group. -/
theorem mem_clusterLoop (near : GeoPoint → GeoPoint → Bool) (tripId : String) :
    ∀ (rest acc : List PhotoAnalysis) (lastPhoto : PhotoAnalysis) (c : PhotoCluster),
      c ∈ clusterLoop near tripId acc lastPhoto rest →
      ∃ g, g ≠ [] ∧ c = finalizeCluster g tripId := by
  intro rest
  induction rest with
  | nil =>
    intro acc lastPhoto c hc
    refine ⟨acc ++ [lastPhoto], by simp, ?_⟩
    simpa [clusterLoop] using hc
  | cons p rest2 ih =>
    intro acc lastPhoto c hc
    rw [show clusterLoop near tripId acc lastPhoto (p :: rest2) =
        (if photoBelongs near lastPhoto p then
          clusterLoop near tripId (acc ++ [lastPhoto]) p rest2
        else
          finalizeCluster (acc ++ [lastPhoto]) tripId ::
            clusterLoop near tripId [] p rest2) from rfl] at hc
    cases hj : photoBelongs near lastPhoto p with
    | true =>
      rw [hj, if_pos rfl] at hc
      exact ih (acc ++ [lastPhoto]) p c hc
    | false =>
      rw [hj, if_neg (by simp)] at hc
      rcases List.mem_cons.mp hc with h | h
      · exact ⟨acc ++ [lastPhoto], by simp, h⟩
      · exact ih [] p c h

/-- The centroid computed by `finalizeCluster` is the claim's centroid of
the converted member photos: the arithmetic mean over exactly the located
members, `(0, 0)` when there are none. -/
theorem finalizeCluster_center (g : List PhotoAnalysis) (tripId : String) :
    (finalizeCluster g tripId).centerLocation = specCentroid (g.map toMetadata) := by
  have hlocs : (g.map toMetadata).filterMap (fun m => m.location) =
      g.filterMap (fun p => p.location) := by
    rw [List.filterMap_map]
    rfl
  simp only [finalizeCluster, specCentroid, hlocs]
  by_cases hnil : g.filterMap (fun p => p.location) = []
  · simp [hnil]
  · have hpos : 0 < (g.filterMap fun p => p.location).length := List.length_pos.mpr hnil
    simp [hnil, hpos]

/-- C2: every cluster produced by the clustering engine (for any spatial
predicate `near`) has `startTime` equal to the timestamp of its first
photo, `endTime` equal to the timestamp of its last photo, and
`centerLocation` equal to the arithmetic mean of latitude/longitude over
exactly its member photos that carry a location, or `(0, 0)` when none
does. -/
theorem clusterPhotos_c2 (near : GeoPoint → GeoPoint → Bool) (photos : List PhotoAnalysis)
    (tripId : String) (c : PhotoCluster) (hc : c ∈ clusterPhotos near photos tripId) :
    ∃ hne : c.photos ≠ [],
      c.startTime = (c.photos.head hne).timestamp ∧
      c.endTime = (c.photos.getLast hne).timestamp ∧
      c.centerLocation = specCentroid c.photos := by
  unfold clusterPhotos at hc
  cases hsort : sortByTimestamp photos with
  | nil =>
    rw [hsort] at hc
    simp at hc
  | cons first rest =>
    rw [hsort] at hc
    dsimp only at hc
    obtain ⟨g, hg, rfl⟩ := mem_clusterLoop near tripId rest [] first c hc
    have h1 : (finalizeCluster g tripId).photos ≠ [] := by
      rw [finalizeCluster_photos]
      simpa using hg
    refine ⟨h1, ?_, ?_, finalizeCluster_center g tripId⟩
    · show (g.headD default).timestamp = ((g.map toMetadata).head h1).timestamp
      rw [List.head_map]
      obtain ⟨a, g2, rfl⟩ := List.exists_cons_of_ne_nil hg
      rfl
    · show (g.getLastD default).timestamp = ((g.map toMetadata).getLast h1).timestamp
      rw [List.getLast_map]
      obtain ⟨a, g2, rfl⟩ := List.exists_cons_of_ne_nil hg
      rw [List.getLastD_cons, List.getLast_eq_getLastD]
      rfl

/-- C10: the clusters returned by `clusterPhotos` partition the input:
concatenating the member photos of the emitted clusters in emission order
yields exactly the input sorted ascending by timestamp (converted to
metadata, which preserves identity, timestamp and location) — nothing
dropped, duplicated, or reordered; every emitted cluster is non-empty; the
sorted walk is a permutation of the input, ascending by timestamp; the
empty input yields no clusters and a single photo yields exactly the one
cluster containing it. -/
theorem clusterPhotos_c10 (near : GeoPoint → GeoPoint → Bool) (photos : List PhotoAnalysis)
    (tripId : String) :
    ((clusterPhotos near photos tripId).flatMap fun c => c.photos) =
        (sortByTimestamp photos).map toMetadata ∧
      (∀ c ∈ clusterPhotos near photos tripId, c.photos ≠ []) ∧
      (sortByTimestamp photos).Perm photos ∧
      List.Pairwise (fun a b : PhotoAnalysis => a.timestamp ≤ b.timestamp)
        (sortByTimestamp photos) ∧
      clusterPhotos near ([] : List PhotoAnalysis) tripId = [] ∧
      ∀ p : PhotoAnalysis, clusterPhotos near [p] tripId = [finalizeCluster [p] tripId] := by
  refine ⟨?_, ?_, List.perm_insertionSort _ _, ?_, rfl, fun p => rfl⟩
  · unfold clusterPhotos
    cases hsort : sortByTimestamp photos with
    | nil => rfl
    | cons first rest =>
      dsimp only
      rw [clusterLoop_bind near tripId rest [] first]
      rfl
  · intro c hc
    unfold clusterPhotos at hc
    cases hsort : sortByTimestamp photos with
    | nil =>
      rw [hsort] at hc
      simp at hc
    | cons first rest =>
      rw [hsort] at hc
      dsimp only at hc
      obtain ⟨g, hg, rfl⟩ := mem_clusterLoop near tripId rest [] first c hc
      rw [finalizeCluster_photos]
      simpa using hg
  · exact @List.sorted_insertionSort PhotoAnalysis (fun a b => a.timestamp ≤ b.timestamp)
      (fun a b => inferInstanceAs (Decidable (a.timestamp ≤ b.timestamp)))
      ⟨fun a b => le_total _ _⟩ ⟨fun a b c hab hbc => le_trans hab hbc⟩ photos

/-- A spatial predicate that always succeeds (used by concrete witnesses;
with it the join test degenerates to the pure time-window test). -/
def nearAlways : GeoPoint → GeoPoint → Bool := fun a b => true

/-- A concrete located photo at time 0. -/
def photoAex : PhotoAnalysis :=
  { nativeId := "a"
    isJunk := false
    junkScore := 0
    qualityScore := 4 / 5
    timestamp := 0
    location := some { latitude := 10, longitude := 20 }
    width := 100
    height := 100 }

/-- A concrete unlocated photo one minute later. -/
def photoBex : PhotoAnalysis :=
  { nativeId := "b"
    isJunk := false
    junkScore := 0
    qualityScore := 7 / 10
    timestamp := 60000
    location := none
    width := 100
    height := 100 }

/-- Witness for C2 on a concrete two-photo cluster (one minute apart, so a
single cluster is emitted). -/
theorem clusterPhotos_c2_witness :
    ∃ hne : (finalizeCluster [photoAex, photoBex] "trip-1").photos ≠ [],
      (finalizeCluster [photoAex, photoBex] "trip-1").startTime =
          ((finalizeCluster [photoAex, photoBex] "trip-1").photos.head hne).timestamp ∧
        (finalizeCluster [photoAex, photoBex] "trip-1").endTime =
          ((finalizeCluster [photoAex, photoBex] "trip-1").photos.getLast hne).timestamp ∧
        (finalizeCluster [photoAex, photoBex] "trip-1").centerLocation =
          specCentroid (finalizeCluster [photoAex, photoBex] "trip-1").photos :=
  clusterPhotos_c2 nearAlways [photoAex, photoBex] "trip-1"
    (finalizeCluster [photoAex, photoBex] "trip-1") (List.Mem.head _)

/-- `Math.atan2` is non-negative whenever its first argument (the
`y`-coordinate) is: the angle of a point in the closed upper half-plane
lies in `[0, π]`. -/
theorem atan2_nonneg {y x : ℝ} (hy : 0 ≤ y) : 0 ≤ atan2 y x :=
  Complex.arg_nonneg_iff.mpr hy

/-- The haversine distance of the source is non-negative for all inputs:
both square roots are non-negative, so the `atan2` angle is. -/
theorem calculateDistance_nonneg (point1 point2 : GeoPoint) :
    0 ≤ calculateDistance point1 point2 := by
  unfold calculateDistance
  have h := atan2_nonneg (x := Real.sqrt (1 - haversineA point1 point2))
    (Real.sqrt_nonneg (haversineA point1 point2))
  have h2 : (0 : ℝ) ≤ 2 * atan2 (Real.sqrt (haversineA point1 point2))
      (Real.sqrt (1 - haversineA point1 point2)) := by linarith
  have h3 : (0 : ℝ) ≤ 6371000 := by norm_num
  exact mul_nonneg h3 h2

/-- C9: `calculateSpeed` equals `calculateDistance` divided by the elapsed
seconds when `time2 > time1`, equals `0` when `time2 ≤ time1` (no division
by zero is ever performed: the guard `timeDiff > 0` fails on zero or
negative elapsed time), and is never negative. -/
theorem calculateSpeed_c9 (point1 point2 : GeoPoint) (time1 time2 : ℤ) :
    (time1 < time2 →
        calculateSpeed point1 point2 time1 time2 =
          calculateDistance point1 point2 / (((time2 : ℝ) - (time1 : ℝ)) / 1000)) ∧
      (time2 ≤ time1 → calculateSpeed point1 point2 time1 time2 = 0) ∧
      0 ≤ calculateSpeed point1 point2 time1 time2 := by
  have hdist := calculateDistance_nonneg point1 point2
  have hiff : (0 < ((time2 : ℝ) - (time1 : ℝ)) / 1000) ↔ time1 < time2 := by
    constructor
    · intro h
      rcases div_pos_iff.mp h with ⟨hn, _⟩ | ⟨_, hd⟩
      · have h1 : (time1 : ℝ) < (time2 : ℝ) := by linarith
        exact_mod_cast h1
      · norm_num at hd
    · intro h
      apply div_pos ?_ (by norm_num)
      have h1 : (time1 : ℝ) < (time2 : ℝ) := by exact_mod_cast h
      linarith
  refine ⟨?_, ?_, ?_⟩
  · intro hlt
    unfold calculateSpeed
    dsimp only
    rw [if_pos (hiff.mpr hlt)]
  · intro hle
    unfold calculateSpeed
    dsimp only
    rw [if_neg (fun h => absurd (hiff.mp h) (not_lt.mpr hle))]
  · unfold calculateSpeed
    dsimp only
    split_ifs with h
    · exact div_nonneg hdist (le_of_lt h)
    · exact le_refl 0

/-- The origin point, used by the C9 witness. -/
def gpZero : GeoPoint := { latitude := 0, longitude := 0 }

/-- Witness for C9 at concrete timestamps: a positive elapsed time divides,
a negative elapsed time yields 0, and the result is non-negative. -/
theorem calculateSpeed_c9_witness :
    (calculateSpeed gpZero gpZero 0 1000 =
        calculateDistance gpZero gpZero / ((((1000 : ℤ) : ℝ) - ((0 : ℤ) : ℝ)) / 1000)) ∧
      calculateSpeed gpZero gpZero 2000 1000 = 0 ∧
      0 ≤ calculateSpeed gpZero gpZero 2000 1000 :=
  ⟨(calculateSpeed_c9 gpZero gpZero 0 1000).1 (by decide),
    (calculateSpeed_c9 gpZero gpZero 2000 1000).2.1 (by decide),
    (calculateSpeed_c9 gpZero gpZero 2000 1000).2.2⟩
